import Mathlib

/-!
Shallow embedding of the easy-s3-multipart repository
(package `easy_s3_multipart`: `config.py`, `models.py`, `handler.py`).

The storage provider (boto3 S3 client) is an external collaborator: each
handler operation takes the provider's response for its delegated call as an
explicit argument, and returns, next to its result, the list of provider
calls it issued, in order.  Python `int` is modelled as `Int` (arbitrary
precision, floor division `Int.fdiv` for `//`), Python exceptions as
`Except PyExc`; the diagnostic message strings carried by the exceptions are
abstracted away, only the exception class is kept.
-/

namespace EasyS3

/-- The exception classes that can escape the handler:
the five domain errors of `exceptions.py` / pydantic construction, plus
Python's builtin `NameError` (which `handler.py` can raise, see
`cleanup_incomplete_uploads`). -/
inductive PyExc where
  | validationError
  | initiationError
  | uploadError
  | deleteError
  | configurationError
  | nameError
deriving DecidableEq, Repr

/-- `models.py` `PartInfo` / the `{"PartNumber": ..., "ETag": ...}` dicts
passed to `complete_upload`. -/
structure PartInfo where
  PartNumber : Int
  ETag : String
deriving DecidableEq, Repr

/-- `config.py` `S3Config` (pydantic model), field for field. -/
structure S3Config where
  bucket_name : String
  aws_access_key_id : String
  aws_secret_access_key : String
  region : String
  part_size : Int
  presigned_url_expiry : Int
  max_file_size : Int
  allowed_extensions : Option (List String)
deriving DecidableEq, Repr

/-- Construction of `S3Config`: pydantic validates exactly the declared
`Field` constraints of `config.py`:
`part_size: ge=5*1024*1024`, `presigned_url_expiry: ge=60, le=604800`.
`max_file_size` has a default but no constraint, and `allowed_extensions`
is an unconstrained optional list.  A constraint violation raises pydantic's
construction-time error (the configuration-error kind). -/
def mkS3Config (bucket_name aws_access_key_id aws_secret_access_key region : String)
    (part_size presigned_url_expiry max_file_size : Int)
    (allowed_extensions : Option (List String)) : Except PyExc S3Config :=
  if part_size < 5 * 1024 * 1024 then Except.error PyExc.configurationError
  else if presigned_url_expiry < 60 then Except.error PyExc.configurationError
  else if presigned_url_expiry > 604800 then Except.error PyExc.configurationError
  else Except.ok
    { bucket_name := bucket_name
      aws_access_key_id := aws_access_key_id
      aws_secret_access_key := aws_secret_access_key
      region := region
      part_size := part_size
      presigned_url_expiry := presigned_url_expiry
      max_file_size := max_file_size
      allowed_extensions := allowed_extensions }

/-- `mkS3Config` with every defaulted field of `config.py` left at its
default (`region="us-east-1"`, `part_size=5*1024*1024`,
`presigned_url_expiry=3600`, `max_file_size=5*1024*1024*1024`,
`allowed_extensions=None`). -/
def mkS3ConfigDefaults (bucket_name aws_access_key_id aws_secret_access_key : String) :
    Except PyExc S3Config :=
  mkS3Config bucket_name aws_access_key_id aws_secret_access_key "us-east-1"
    (5 * 1024 * 1024) 3600 (5 * 1024 * 1024 * 1024) none

/-- The provider (boto3 S3 client) calls a handler operation can issue. -/
inductive ProviderCall where
  | createMultipartUpload (bucket key contentType : String)
      (metadata : List (String × String))
  | presignUploadPart (bucket key uploadId : String) (partNumber expiresIn : Int)
  | completeMultipartUpload (bucket key uploadId : String) (parts : List PartInfo)
  | abortMultipartUpload (bucket key uploadId : String)
  | listObjectsV2 (bucket pfx : String)
  | presignGetObject (bucket key : String) (expiresIn : Int)
  | deleteObject (bucket key : String)
  | listMultipartUploads (bucket : String)
deriving DecidableEq, Repr

/-- `models.py` `InitiateUploadResponse`. -/
structure InitiateUploadResponse where
  upload_id : String
  key : String
  bucket : String
  parts_count : Int
  part_size : Int
deriving DecidableEq, Repr

/-- `models.py` `PresignedUrlResponse`. -/
structure PresignedUrlResponse where
  url : String
  part_number : Int
  expires_in : Int
deriving DecidableEq, Repr

/-- `models.py` `CompleteUploadResponse`. -/
structure CompleteUploadResponse where
  success : Bool
  location : String
  key : String
  bucket : String
deriving DecidableEq, Repr

/-- `models.py` `S3FileInfo`.  `last_modified` is the object's
last-modified instant; the code stores `obj["LastModified"].isoformat()`,
and since `isoformat` is a strictly monotone injection of datetimes into
strings we model the instant directly as an integer timestamp. -/
structure S3FileInfo where
  key : String
  filename : String
  size : Int
  last_modified : Int
  etag : String
deriving DecidableEq, Repr

/-- `models.py` `ListFilesResponse`. -/
structure ListFilesResponse where
  files : List S3FileInfo
  total_count : Int
  page : Int
  page_size : Int
  total_pages : Int
deriving DecidableEq, Repr

/-- Python truthiness of `self.config.allowed_extensions`
(`None` and `[]` are both falsy). -/
def extsTruthy : Option (List String) → Bool
  | none => false
  | some l => !l.isEmpty

/-- Python `s.split(sep)` for a one-character separator, on the character
list of the string: always returns at least one (possibly empty) component,
and one extra component per separator occurrence. -/
def splitOnChar (c : Char) : List Char → List (List Char)
  | [] => [[]]
  | x :: xs =>
    match splitOnChar c xs with
    | [] => if x = c then [[], []] else [[x]]
    | y :: ys => if x = c then [] :: y :: ys else (x :: y) :: ys

/-- Python `str.lower`; it agrees with per-character ASCII lowercasing on
the ASCII strings handled here. -/
def pyLower (s : String) : String := String.mk (s.data.map Char.toLower)

/-- `filename.split(".")[-1].lower()` from `_validate_file`:
the last component of splitting on `"."` (the whole name when it has no
dot), lowercased. -/
def pyExt (filename : String) : String :=
  pyLower (String.mk ((splitOnChar '.' filename.data).getLastD []))

/-- `S3MultipartHandler._validate_file` (handler.py lines 114-134):
rejects `file_size > max_file_size`; then, when the allow-list is truthy,
rejects a filename whose `pyExt` is not in it. -/
def validate_file (cfg : S3Config) (filename : String) (file_size : Int) :
    Except PyExc Unit :=
  if file_size > cfg.max_file_size then Except.error PyExc.validationError
  else if extsTruthy cfg.allowed_extensions then
    if pyExt filename ∈ cfg.allowed_extensions.getD [] then Except.ok ()
    else Except.error PyExc.validationError
  else Except.ok ()

/-- A UTC instant as the broken-down fields `datetime.utcnow()` exposes to
`strftime`. -/
structure UTCTime where
  year : Nat
  month : Nat
  day : Nat
  hour : Nat
  minute : Nat
  second : Nat
deriving DecidableEq, Repr

/-- Two-digit zero-padded decimal rendering, as CPython `strftime` does for
`%m`, `%d`, `%H`, `%M`, `%S` (all of which are below 100 for a valid
datetime). -/
def pad2 (n : Nat) : String :=
  String.mk [Nat.digitChar (n / 10 % 10), Nat.digitChar (n % 10)]

/-- Four-digit zero-padded decimal rendering, as CPython `strftime` does for
`%Y` (datetime years are in 1..9999). -/
def pad4 (n : Nat) : String :=
  String.mk [Nat.digitChar (n / 1000 % 10), Nat.digitChar (n / 100 % 10),
    Nat.digitChar (n / 10 % 10), Nat.digitChar (n % 10)]

/-- `S3MultipartHandler._generate_s3_key` (handler.py lines 136-147):
the f-string
`{pfx}/{timestamp.strftime('%Y/%m/%d')}/{timestamp.strftime('%H%M%S')}_{filename}`
over the current UTC time, which is passed in explicitly here. -/
def generate_s3_key (now : UTCTime) (filename : String) (pfx : String := "uploads") :
    String :=
  pfx ++ "/" ++ pad4 now.year ++ "/" ++ pad2 now.month ++ "/" ++ pad2 now.day
    ++ "/" ++ pad2 now.hour ++ pad2 now.minute ++ pad2 now.second ++ "_" ++ filename

/-- Python `custom_key or generated` (an empty string is falsy, like `None`). -/
def pyOrDefault (o : Option String) (d : String) : String :=
  match o with
  | none => d
  | some s => if s = "" then d else s

/-- `S3MultipartHandler.initiate_upload` (handler.py lines 149-203).
`createResp` is the provider's answer to `create_multipart_upload`: the
`UploadId` on success, or a `ClientError`/`BotoCoreError` diagnostic, which
the handler re-raises as an initiation error.
`parts_count` is computed as `(file_size + part_size - 1) // part_size`
(Python floor division, `Int.fdiv`). -/
def initiate_upload (cfg : S3Config) (bucket : String) (now : UTCTime)
    (createResp : Except String String) (filename : String) (file_size : Int)
    (content_type : String) (metadata : List (String × String))
    (custom_key : Option String) :
    Except PyExc InitiateUploadResponse × List ProviderCall :=
  match validate_file cfg filename file_size with
  | Except.error e => (Except.error e, [])
  | Except.ok _ =>
    let key := pyOrDefault custom_key (generate_s3_key now filename)
    let call := ProviderCall.createMultipartUpload bucket key content_type metadata
    match createResp with
    | Except.error _ => (Except.error PyExc.initiationError, [call])
    | Except.ok upload_id =>
        (Except.ok
          { upload_id := upload_id
            key := key
            bucket := bucket
            parts_count := (file_size + cfg.part_size - 1).fdiv cfg.part_size
            part_size := cfg.part_size }, [call])

/-- `S3MultipartHandler.generate_presigned_url` (handler.py lines 205-244).
`signResp` is the provider's answer to `generate_presigned_url`. -/
def generate_presigned_url (cfg : S3Config) (bucket : String)
    (signResp : Except String String) (upload_id key : String) (part_number : Int) :
    Except PyExc PresignedUrlResponse × List ProviderCall :=
  if part_number < 1 ∨ part_number > 10000 then
    (Except.error PyExc.validationError, [])
  else
    let call := ProviderCall.presignUploadPart bucket key upload_id part_number
      cfg.presigned_url_expiry
    match signResp with
    | Except.error _ => (Except.error PyExc.uploadError, [call])
    | Except.ok url =>
        (Except.ok
          { url := url
            part_number := part_number
            expires_in := cfg.presigned_url_expiry }, [call])

/-- The sort key of `sorted(parts, key=lambda x: x["PartNumber"])`. -/
def partLE (a b : PartInfo) : Prop := a.PartNumber ≤ b.PartNumber

instance : DecidableRel partLE := fun a b =>
  inferInstanceAs (Decidable (a.PartNumber ≤ b.PartNumber))

instance : IsTotal PartInfo partLE := ⟨fun a b => Int.le_total a.PartNumber b.PartNumber⟩

instance : IsTrans PartInfo partLE := ⟨fun _ _ _ h1 h2 => le_trans h1 h2⟩

/-- `S3MultipartHandler.complete_upload` (handler.py lines 246-287).
Python's `sorted` is a stable sort; `List.insertionSort` with a
non-strict total relation is stable in the same sense, so it models it.
`completeResp` is the provider's answer to `complete_multipart_upload`:
the `Location` on success. -/
def complete_upload (bucket : String) (completeResp : Except String String)
    (upload_id key : String) (parts : List PartInfo) :
    Except PyExc CompleteUploadResponse × List ProviderCall :=
  if parts.isEmpty then (Except.error PyExc.validationError, [])
  else
    let parts_sorted := List.insertionSort partLE parts
    let call := ProviderCall.completeMultipartUpload bucket key upload_id parts_sorted
    match completeResp with
    | Except.error _ => (Except.error PyExc.uploadError, [call])
    | Except.ok location =>
        (Except.ok
          { success := true
            location := location
            key := key
            bucket := bucket }, [call])

/-- A record of the provider's object listing (a `Contents` entry of
`list_objects_v2`), with the last-modified instant as an integer timestamp
(see `S3FileInfo.last_modified`) and `ETagField` for `obj.get("ETag", "")`. -/
structure S3Object where
  Key : String
  Size : Int
  LastModified : Int
  ETagField : Option String
deriving DecidableEq, Repr

/-- The descending order `all_objects.sort(key=lambda x: x["LastModified"],
reverse=True)` sorts by.  CPython's `reverse=True` sort is stable: records
with equal keys keep their listing order, exactly as a stable sort by this
non-strict relation. -/
def objDescLM (a b : S3Object) : Prop := b.LastModified ≤ a.LastModified

instance : DecidableRel objDescLM := fun a b =>
  inferInstanceAs (Decidable (b.LastModified ≤ a.LastModified))

instance : IsTotal S3Object objDescLM :=
  ⟨fun a b => Int.le_total b.LastModified a.LastModified⟩

instance : IsTrans S3Object objDescLM := ⟨fun _ _ _ h1 h2 => le_trans h2 h1⟩

/-- Python `s.strip('"')`: drop every leading and trailing `'"'` character
(`Char.ofNat 34`). -/
def pyStripQuotes (s : String) : String :=
  String.mk (((s.data.dropWhile (· = Char.ofNat 34)).reverse.dropWhile
    (· = Char.ofNat 34)).reverse)

/-- The `S3FileInfo` built from one listing record in `list_files`:
`filename` is `obj["Key"].split("/")[-1]`, `etag` is
`obj.get("ETag", "").strip('"')`. -/
def toFileInfo (o : S3Object) : S3FileInfo :=
  { key := o.Key
    filename := String.mk ((splitOnChar '/' o.Key.data).getLastD [])
    size := o.Size
    last_modified := o.LastModified
    etag := pyStripQuotes (o.ETagField.getD "") }

/-- Python list slicing `l[a:b]` for the regime `0 ≤ a ≤ b` exercised by
`list_files` (page ≥ 1, page_size ≥ 1). -/
def pySlice {α : Type} (l : List α) (a b : Int) : List α :=
  (l.drop a.toNat).take (b.toNat - a.toNat)

/-- `S3MultipartHandler.list_files` (handler.py lines 309-366).
`objs` is the full listing the provider returned for the given `pfx`
(the transport-level pagination is flattened by the code itself, which
extends `all_objects` with every page's `Contents`). -/
def list_files (bucket : String) (objs : List S3Object) (pfx : String)
    (page page_size : Int) : ListFilesResponse × List ProviderCall :=
  let call := ProviderCall.listObjectsV2 bucket pfx
  let all_objects := List.insertionSort objDescLM objs
  let total_count : Int := all_objects.length
  let total_pages := (total_count + page_size - 1).fdiv page_size
  let start_idx := (page - 1) * page_size
  let end_idx := start_idx + page_size
  let paginated_objects := pySlice all_objects start_idx end_idx
  ({ files := paginated_objects.map toFileInfo
     total_count := total_count
     page := page
     page_size := page_size
     total_pages := total_pages }, [call])

/-- One `Uploads` record of the provider's `list_multipart_uploads`
response, with `Initiated` as an integer timestamp. -/
structure MultipartUploadEntry where
  UploadId : String
  Key : String
  Initiated : Int
deriving DecidableEq, Repr

/-- `S3MultipartHandler.cleanup_incomplete_uploads` (handler.py lines
410-441).  `listing` is `response.get("Uploads")`: `none` when the
response has no `Uploads` key, in which case the code returns 0.
Otherwise the very next statement, line 428
(`cutoff_date = datetime.utcnow() - timedelta(days=days_old)`), references
`timedelta`, a name the module never binds — handler.py line 21 imports only
`datetime` from the `datetime` module — so CPython raises `NameError`
before any cutoff comparison or abort; the surrounding
`except (ClientError, BotoCoreError)` does not catch `NameError`, which
therefore escapes.  `now` and `days_old` are kept in the signature because
line 428 would consume them, but they are unreachable. -/
def cleanup_incomplete_uploads (bucket : String) (_now : Int)
    (listing : Option (List MultipartUploadEntry)) (_days_old : Int) :
    Except PyExc Int × List ProviderCall :=
  let calls := [ProviderCall.listMultipartUploads bucket]
  match listing with
  | none => (Except.ok 0, calls)
  | some _ => (Except.error PyExc.nameError, calls)

/-- `CompleteUploadRequest.validate_parts` (models.py lines 118-126):
raises on an empty list, then raises when
`sorted(part_numbers) != part_numbers`; returns the list (accepts)
otherwise.  `true` = accepted, `false` = pydantic rejects the request. -/
def validate_parts (v : List PartInfo) : Bool :=
  if v.isEmpty then false
  else
    let part_numbers := v.map PartInfo.PartNumber
    decide (List.insertionSort (α := Int) (· ≤ ·) part_numbers = part_numbers)

/-! ### Helper lemmas -/

/-- Python's `(a + b - 1) // b` is the ceiling of the exact quotient `a / b`
for a positive divisor. -/
lemma fdiv_add_sub_one_eq_ceil (a b : Int) (hb : 0 < b) :
    (a + b - 1).fdiv b = Int.ceil ((a : ℚ) / (b : ℚ)) := by
  rw [Int.fdiv_eq_ediv _ (Int.le_of_lt hb)]
  have hbq : (0 : ℚ) < (b : ℚ) := by exact_mod_cast hb
  have hkey : b * ((a + b - 1) / b) + (a + b - 1) % b = a + b - 1 :=
    Int.ediv_add_emod _ _
  have h1 : 0 ≤ (a + b - 1) % b := Int.emod_nonneg _ (by omega)
  have h2 : (a + b - 1) % b < b := Int.emod_lt_of_pos _ hb
  have e : (a : ℚ) = (b : ℚ) * (((a + b - 1) / b : Int) : ℚ)
      + (((a + b - 1) % b : Int) : ℚ) - (b : ℚ) + 1 := by
    have := congrArg (fun z : Int => (z : ℚ)) hkey
    push_cast at this
    linarith
  have h1q : (0 : ℚ) ≤ (((a + b - 1) % b : Int) : ℚ) := by exact_mod_cast h1
  have h2q : (((a + b - 1) % b : Int) : ℚ) < (b : ℚ) := by exact_mod_cast h2
  have h3q : (((a + b - 1) % b : Int) : ℚ) + 1 ≤ (b : ℚ) := by
    exact_mod_cast (by omega : (a + b - 1) % b + 1 ≤ b)
  symm
  rw [Int.ceil_eq_iff]
  refine ⟨?_, ?_⟩
  · rw [lt_div_iff₀ hbq]
    nlinarith
  · rw [div_le_iff₀ hbq, mul_comm]
    linarith

/-- A positive numerator and positive divisor give a ceiling of at least 1. -/
lemma one_le_ceil_div (a b : Int) (ha : 1 ≤ a) (hb : 0 < b) :
    1 ≤ Int.ceil ((a : ℚ) / (b : ℚ)) := by
  have hbq : (0 : ℚ) < (b : ℚ) := by exact_mod_cast hb
  have haq : (0 : ℚ) < (a : ℚ) := by exact_mod_cast (by omega : (0 : Int) < a)
  have : (0 : ℚ) < (a : ℚ) / (b : ℚ) := div_pos haq hbq
  have := Int.ceil_pos.mpr this
  omega

/-- `Nat.digitChar` of a value below 10 is a decimal digit character. -/
lemma digitChar_isDigit {k : Nat} (h : k < 10) : (Nat.digitChar k).isDigit = true := by
  interval_cases k <;> rfl

/-- Both characters of `pad2` are decimal digits. -/
lemma pad2_all_isDigit (n : Nat) : (pad2 n).data.all Char.isDigit = true := by
  simp only [pad2, String.mk, List.all]
  rw [digitChar_isDigit (Nat.mod_lt _ (by norm_num)),
    digitChar_isDigit (Nat.mod_lt _ (by norm_num))]
  rfl

/-- All four characters of `pad4` are decimal digits. -/
lemma pad4_all_isDigit (n : Nat) : (pad4 n).data.all Char.isDigit = true := by
  simp only [pad4, String.mk, List.all]
  rw [digitChar_isDigit (Nat.mod_lt _ (by norm_num)),
    digitChar_isDigit (Nat.mod_lt _ (by norm_num)),
    digitChar_isDigit (Nat.mod_lt _ (by norm_num)),
    digitChar_isDigit (Nat.mod_lt _ (by norm_num))]
  rfl

/-- `pad2` renders exactly two characters. -/
lemma pad2_length (n : Nat) : (pad2 n).length = 2 := rfl

/-- `pad4` renders exactly four characters. -/
lemma pad4_length (n : Nat) : (pad4 n).length = 4 := rfl

/-- The strict version of the completion sort key. -/
def partLT (a b : PartInfo) : Prop := a.PartNumber < b.PartNumber

instance : IsAntisymm PartInfo partLT :=
  ⟨fun a _ h1 h2 => absurd (lt_trans h1 h2) (lt_irrefl a.PartNumber)⟩

/-- Two lists of parts that are permutations of each other and have pairwise
distinct part numbers sort to the same list. -/
lemma insertionSort_eq_of_perm_of_nodup_keys {l₁ l₂ : List PartInfo}
    (hnd : (l₁.map PartInfo.PartNumber).Nodup) (hp : l₁.Perm l₂) :
    List.insertionSort partLE l₁ = List.insertionSort partLE l₂ := by
  have hperm : (List.insertionSort partLE l₁).Perm (List.insertionSort partLE l₂) :=
    ((List.perm_insertionSort partLE l₁).trans hp).trans
      (List.perm_insertionSort partLE l₂).symm
  have hne₁ : l₁.Pairwise (fun a b => a.PartNumber ≠ b.PartNumber) :=
    (List.pairwise_map).mp hnd
  have hneS₁ : (List.insertionSort partLE l₁).Pairwise
      (fun a b => a.PartNumber ≠ b.PartNumber) :=
    (List.perm_insertionSort partLE l₁).symm.pairwise hne₁ (fun h => h.symm)
  have hneS₂ : (List.insertionSort partLE l₂).Pairwise
      (fun a b => a.PartNumber ≠ b.PartNumber) :=
    (List.perm_insertionSort partLE l₂).symm.pairwise
      (hp.pairwise hne₁ (fun h => h.symm)) (fun h => h.symm)
  have hs₁ : List.Sorted partLT (List.insertionSort partLE l₁) :=
    ((List.sorted_insertionSort partLE l₁).and hneS₁).imp
      (fun h => lt_of_le_of_ne h.1 h.2)
  have hs₂ : List.Sorted partLT (List.insertionSort partLE l₂) :=
    ((List.sorted_insertionSort partLE l₂).and hneS₂).imp
      (fun h => lt_of_le_of_ne h.1 h.2)
  exact List.eq_of_perm_of_sorted hperm hs₁ hs₂

/-! ### Concrete fixtures -/

/-- A configuration with every defaulted field of `config.py` at its
default. -/
def cfg0 : S3Config :=
  { bucket_name := "test-bucket"
    aws_access_key_id := "ak"
    aws_secret_access_key := "sk"
    region := "us-east-1"
    part_size := 5 * 1024 * 1024
    presigned_url_expiry := 3600
    max_file_size := 5 * 1024 * 1024 * 1024
    allowed_extensions := none }

/-- `cfg0` with an extension allow-list. -/
def cfgJpg : S3Config := { cfg0 with allowed_extensions := some ["jpg", "png"] }

/-- `cfg0` with an empty extension allow-list. -/
def cfgEmptyList : S3Config := { cfg0 with allowed_extensions := some [] }

/-- A concrete UTC instant. -/
def t0 : UTCTime := ⟨2025, 10, 12, 14, 30, 5⟩

/-! ### Claim theorems -/

/-- C10: for every `days_old`, when the provider's list of in-progress
multipart uploads contains no uploads (no `Uploads` field in the response),
`cleanup_incomplete_uploads` returns 0, and the only provider call issued is
the listing itself — no abort call at all. -/
theorem claim10_cleanup_empty_listing_returns_zero (bucket : String) (now days_old : Int) :
    cleanup_incomplete_uploads bucket now none days_old
      = (Except.ok 0, [ProviderCall.listMultipartUploads bucket])
    ∧ ∀ (k uid : String),
        ProviderCall.abortMultipartUpload bucket k uid
          ∉ (cleanup_incomplete_uploads bucket now none days_old).snd := by
  refine ⟨rfl, ?_⟩
  intro k uid h
  simp [cleanup_incomplete_uploads] at h

/-- C1 (code bug): at the failing input — the provider reports one
in-progress upload initiated 10 days before now, with `days_old = 7` — the
claim (and the repository's own test `test_cleanup_incomplete_uploads`)
requires the upload to be aborted and the count 1 returned, but the code
raises an uncaught `NameError` (`timedelta` is used on handler.py line 428
yet never imported) and issues no abort call. -/
theorem claim1_cleanup_raises_nameError :
    cleanup_incomplete_uploads "test-bucket" 864000
        (some [{ UploadId := "123", Key := "stale-file.dat", Initiated := 0 }]) 7
      = (Except.error PyExc.nameError, [ProviderCall.listMultipartUploads "test-bucket"]) :=
  rfl

/-- C3 (counterexample): the claim says construction fails whenever
`max_file_size` is not a positive integer, but constructing the
configuration with `max_file_size = 0` (all other fields at their
defaults) succeeds. -/
theorem claim3_cex_zero_max_file_size_accepted :
    (mkS3Config "b" "ak" "sk" "us-east-1" (5 * 1024 * 1024) 3600 0 none).isOk = true :=
  rfl

/-- C3 (amended): construction fails fast with a configuration error exactly
when `part_size` is below 5 MiB or `presigned_url_expiry` is outside
[60, 604800] seconds — `max_file_size` is not validated — and construction
with the defaults (5 MiB part size, 3600 s expiry, 5 GiB max file size)
succeeds. -/
theorem claim3_config_validation (bn ak sk rg : String) (ps ex mfs : Int)
    (exts : Option (List String)) :
    ((mkS3Config bn ak sk rg ps ex mfs exts).isOk = true
      ↔ (5 * 1024 * 1024 ≤ ps ∧ 60 ≤ ex ∧ ex ≤ 604800))
    ∧ (mkS3ConfigDefaults bn ak sk).isOk = true := by
  refine ⟨?_, rfl⟩
  unfold mkS3Config
  split_ifs with h1 h2 h3 <;>
    simp [Except.isOk, Except.toBool] <;> omega

/-- C6: the completion request model's `validate_parts` accepts every
non-empty parts list whose part numbers are non-decreasing, rejects every
parts list whose part numbers are not in non-decreasing order, and rejects
the empty parts list. -/
theorem claim6_validate_parts_sortedness :
    (∀ v : List PartInfo, v ≠ [] →
        List.Sorted (α := Int) (· ≤ ·) (v.map PartInfo.PartNumber) →
        validate_parts v = true)
    ∧ (∀ v : List PartInfo,
        ¬ List.Sorted (α := Int) (· ≤ ·) (v.map PartInfo.PartNumber) →
        validate_parts v = false)
    ∧ validate_parts [] = false := by
  refine ⟨?_, ?_, rfl⟩
  · intro v hne hs
    match v with
    | [] => exact absurd rfl hne
    | a :: l =>
      simp only [validate_parts, List.isEmpty_cons, Bool.false_eq_true, if_false,
        decide_eq_true_eq]
      exact List.Sorted.insertionSort_eq hs
  · intro v hns
    match v with
    | [] => exact absurd List.sorted_nil hns
    | a :: l =>
      simp only [validate_parts, List.isEmpty_cons, Bool.false_eq_true, if_false,
        decide_eq_false_iff_not]
      intro heq
      exact hns (heq ▸ List.sorted_insertionSort _ _)

/-- C6 witness: `validate_parts` at concrete accepted and rejected inputs. -/
theorem claim6_validate_parts_witness :
    validate_parts [⟨1, "e1"⟩, ⟨2, "e2"⟩] = true
    ∧ validate_parts [⟨2, "e2"⟩, ⟨1, "e1"⟩] = false :=
  ⟨claim6_validate_parts_sortedness.1 [⟨1, "e1"⟩, ⟨2, "e2"⟩] (by decide) (by decide),
    claim6_validate_parts_sortedness.2.1 [⟨2, "e2"⟩, ⟨1, "e1"⟩] (by decide)⟩

/-- C4: each locally checked precondition violation — `file_size` above
`max_file_size` in `initiate_upload`, a disallowed extension in
`initiate_upload`, an empty parts list in `complete_upload`, and a
`part_number` outside [1, 10000] in `generate_presigned_url` — yields a
`ValidationError` with an empty provider-call trace, so no provider-side
state is created by a purely local validation failure. -/
theorem claim4_validation_before_provider_calls :
    (∀ (cfg : S3Config) (bucket : String) (now : UTCTime)
        (createResp : Except String String) (filename : String) (file_size : Int)
        (ct : String) (md : List (String × String)) (ck : Option String),
        file_size > cfg.max_file_size →
        initiate_upload cfg bucket now createResp filename file_size ct md ck
          = (Except.error PyExc.validationError, []))
    ∧ (∀ (cfg : S3Config) (bucket : String) (now : UTCTime)
        (createResp : Except String String) (filename : String) (file_size : Int)
        (ct : String) (md : List (String × String)) (ck : Option String)
        (exts : List String),
        cfg.allowed_extensions = some exts → exts ≠ [] →
        file_size ≤ cfg.max_file_size → pyExt filename ∉ exts →
        initiate_upload cfg bucket now createResp filename file_size ct md ck
          = (Except.error PyExc.validationError, []))
    ∧ (∀ (bucket : String) (completeResp : Except String String) (uid key : String),
        complete_upload bucket completeResp uid key []
          = (Except.error PyExc.validationError, []))
    ∧ (∀ (cfg : S3Config) (bucket : String) (signResp : Except String String)
        (uid key : String) (pn : Int),
        pn < 1 ∨ pn > 10000 →
        generate_presigned_url cfg bucket signResp uid key pn
          = (Except.error PyExc.validationError, [])) := by
  refine ⟨?_, ?_, ?_, ?_⟩
  · intro cfg bucket now createResp filename file_size ct md ck h
    simp [initiate_upload, validate_file, h]
  · intro cfg bucket now createResp filename file_size ct md ck exts hexts hne hle hmem
    unfold initiate_upload validate_file
    rw [if_neg (by omega : ¬ file_size > cfg.max_file_size), hexts]
    have htr : extsTruthy (some exts) = true := by
      cases exts with
      | nil => exact absurd rfl hne
      | cons a l => rfl
    rw [if_pos htr, if_neg (by simpa using hmem)]
  · intro bucket completeResp uid key
    rfl
  · intro cfg bucket signResp uid key pn h
    unfold generate_presigned_url
    rw [if_pos h]

/-- C4 witness: each of the four local validation failures at a concrete
input. -/
theorem claim4_witness :
    initiate_upload cfg0 "b" t0 (Except.ok "uid") "big.bin"
        (5 * 1024 * 1024 * 1024 + 1) "ct" [] none
      = (Except.error PyExc.validationError, [])
    ∧ initiate_upload cfgJpg "b" t0 (Except.ok "uid") "doc.pdf" 10 "ct" [] none
      = (Except.error PyExc.validationError, [])
    ∧ complete_upload "b" (Except.ok "loc") "uid" "k" []
      = (Except.error PyExc.validationError, [])
    ∧ generate_presigned_url cfg0 "b" (Except.ok "url") "uid" "k" 0
      = (Except.error PyExc.validationError, []) :=
  ⟨claim4_validation_before_provider_calls.1 cfg0 "b" t0 (Except.ok "uid") "big.bin"
      (5 * 1024 * 1024 * 1024 + 1) "ct" [] none (by decide),
    claim4_validation_before_provider_calls.2.1 cfgJpg "b" t0 (Except.ok "uid") "doc.pdf"
      10 "ct" [] none ["jpg", "png"] rfl (by decide) (by decide) (by decide),
    claim4_validation_before_provider_calls.2.2.1 "b" (Except.ok "loc") "uid" "k",
    claim4_validation_before_provider_calls.2.2.2 cfg0 "b" (Except.ok "url") "uid" "k" 0
      (Or.inl (by decide))⟩

/-- C2 (counterexample): the claim quantifies over every `file_size`, but at
`file_size = 0` (accepted by the handler, which never checks positivity)
`initiate_upload` returns `parts_count = 0`, which is not at least 1. -/
theorem claim2_cex_zero_file_size :
    ((initiate_upload cfg0 "b" t0 (Except.ok "uid") "data.bin" 0
        "application/octet-stream" [] none).fst.map InitiateUploadResponse.parts_count
      = Except.ok 0)
    ∧ ¬ (1 ≤ (0 : Int)) :=
  ⟨rfl, by decide⟩

/-- C2 (amended): for every `file_size ≥ 1` and every configured
`part_size` (the construction floor is 5 MiB), whenever `initiate_upload`
returns a response its `parts_count` equals `ceil(file_size / part_size)`
and is at least 1. -/
theorem claim2_parts_count_is_ceil (cfg : S3Config) (bucket uid : String) (now : UTCTime)
    (filename : String) (file_size : Int) (ct : String) (md : List (String × String))
    (ck : Option String) (resp : InitiateUploadResponse)
    (hps : 5 * 1024 * 1024 ≤ cfg.part_size) (hfs : 1 ≤ file_size)
    (hok : (initiate_upload cfg bucket now (Except.ok uid) filename file_size ct md ck).fst
      = Except.ok resp) :
    resp.parts_count = Int.ceil ((file_size : ℚ) / (cfg.part_size : ℚ))
    ∧ 1 ≤ resp.parts_count := by
  have hb : (0 : Int) < cfg.part_size := by omega
  unfold initiate_upload at hok
  cases hval : validate_file cfg filename file_size with
  | error e => rw [hval] at hok; simp at hok
  | ok u =>
    rw [hval] at hok
    simp only [Except.ok.injEq] at hok
    rw [← hok]
    refine ⟨fdiv_add_sub_one_eq_ceil file_size cfg.part_size hb, ?_⟩
    rw [fdiv_add_sub_one_eq_ceil file_size cfg.part_size hb]
    exact one_le_ceil_div file_size cfg.part_size hfs hb

/-- The response `initiate_upload` produces for a 1-byte file under `cfg0`. -/
def resp1 : InitiateUploadResponse :=
  { upload_id := "uid"
    key := generate_s3_key t0 "a.bin"
    bucket := "b"
    parts_count := 1
    part_size := 5 * 1024 * 1024 }

/-- C2 witness: at `file_size = 1` with the default 5 MiB part size the
returned `parts_count` is `ceil(1 / part_size)` and at least 1. -/
theorem claim2_parts_count_witness :
    resp1.parts_count = Int.ceil (((1 : Int) : ℚ) / ((cfg0.part_size : Int) : ℚ))
    ∧ 1 ≤ resp1.parts_count :=
  claim2_parts_count_is_ceil cfg0 "b" "uid" t0 "a.bin" 1 "ct" [] none resp1
    (by decide) (by decide) rfl

/-- `initiate_upload` raises a `ValidationError` exactly when its local
validation does: every later failure is re-raised as an initiation error. -/
lemma initiate_upload_validationError_iff (cfg : S3Config) (bucket : String)
    (now : UTCTime) (createResp : Except String String) (filename : String)
    (file_size : Int) (ct : String) (md : List (String × String)) (ck : Option String) :
    ((initiate_upload cfg bucket now createResp filename file_size ct md ck).fst
      = Except.error PyExc.validationError)
    ↔ validate_file cfg filename file_size = Except.error PyExc.validationError := by
  unfold initiate_upload
  cases hval : validate_file cfg filename file_size with
  | error e => simp
  | ok u => cases createResp <;> simp

/-- C9 (counterexample): the claim says that with an allow-list configured a
filename is accepted iff its extension is in the list; but with the empty
allow-list configured, `initiate_upload` accepts "notes.txt" even though
"txt" is not a member of the empty list (Python treats an empty list like
`None` here). -/
theorem claim9_cex_empty_allowlist_accepts :
    ((initiate_upload cfgEmptyList "b" t0 (Except.ok "uid") "notes.txt" 100
        "ct" [] none).fst.isOk = true)
    ∧ pyExt "notes.txt" ∉ ([] : List String) :=
  ⟨rfl, by decide⟩

/-- C9 (amended): when a non-empty extension allow-list is configured,
`initiate_upload` (at a size below the limit) raises a `ValidationError`
exactly when the filename's lowercased extension — the part after the last
dot — is not a member of the list; with no allow-list (`None`) or an empty
one, every extension is accepted. -/
theorem claim9_extension_allowlist (cfg : S3Config) (bucket : String) (now : UTCTime)
    (createResp : Except String String) (filename : String) (file_size : Int)
    (ct : String) (md : List (String × String)) (ck : Option String)
    (hsize : file_size ≤ cfg.max_file_size) :
    (∀ exts : List String, cfg.allowed_extensions = some exts → exts ≠ [] →
      (((initiate_upload cfg bucket now createResp filename file_size ct md ck).fst
          = Except.error PyExc.validationError)
        ↔ pyExt filename ∉ exts))
    ∧ (cfg.allowed_extensions = none →
        (initiate_upload cfg bucket now createResp filename file_size ct md ck).fst
          ≠ Except.error PyExc.validationError)
    ∧ (cfg.allowed_extensions = some [] →
        (initiate_upload cfg bucket now createResp filename file_size ct md ck).fst
          ≠ Except.error PyExc.validationError) := by
  simp only [ne_eq, initiate_upload_validationError_iff]
  unfold validate_file
  rw [if_neg (by omega : ¬ file_size > cfg.max_file_size)]
  refine ⟨?_, ?_, ?_⟩
  · intro exts hexts hne
    rw [hexts]
    have htr : extsTruthy (some exts) = true := by
      cases exts with
      | nil => exact absurd rfl hne
      | cons a l => rfl
    rw [if_pos htr]
    simp only [Option.getD_some]
    by_cases hmem : pyExt filename ∈ exts
    · rw [if_pos hmem]
      simp [hmem]
    · rw [if_neg hmem]
      simp [hmem]
  · intro hexts
    rw [hexts]
    simp [extsTruthy]
  · intro hexts
    rw [hexts]
    simp [extsTruthy]

/-- C9 witness: with allow-list `["jpg", "png"]`, "photo.JPG" is accepted
("jpg" is a member after lowercasing) and "doc.pdf" is rejected. -/
theorem claim9_extension_allowlist_witness :
    ¬ (((initiate_upload cfgJpg "b" t0 (Except.ok "uid") "photo.JPG" 100
          "ct" [] none).fst = Except.error PyExc.validationError))
    ∧ ((initiate_upload cfgJpg "b" t0 (Except.ok "uid") "doc.pdf" 100
          "ct" [] none).fst = Except.error PyExc.validationError) := by
  constructor
  · intro h
    exact ((claim9_extension_allowlist cfgJpg "b" t0 (Except.ok "uid") "photo.JPG" 100
        "ct" [] none (by decide)).1 ["jpg", "png"] rfl (by decide)).mp h (by decide)
  · exact ((claim9_extension_allowlist cfgJpg "b" t0 (Except.ok "uid") "doc.pdf" 100
        "ct" [] none (by decide)).1 ["jpg", "png"] rfl (by decide)).mpr (by decide)

/-- C5 (counterexample): the two parts lists `[{1,"e1"},{1,"e2"}]` and
`[{1,"e2"},{1,"e1"}]` are permutations of each other, yet — part numbers
being equal, and Python's `sorted` stable — `complete_upload` submits them
to the provider in different orders. -/
theorem claim5_cex_duplicate_part_numbers :
    (([⟨1, "e1"⟩, ⟨1, "e2"⟩] : List PartInfo).Perm [⟨1, "e2"⟩, ⟨1, "e1"⟩])
    ∧ (complete_upload "b" (Except.ok "loc") "uid" "k" [⟨1, "e1"⟩, ⟨1, "e2"⟩]).snd
        ≠ (complete_upload "b" (Except.ok "loc") "uid" "k" [⟨1, "e2"⟩, ⟨1, "e1"⟩]).snd :=
  ⟨by decide, by decide⟩

/-- C5 (amended): for every non-empty parts list, `complete_upload` submits
exactly one completion call carrying the input list sorted ascending by
part number (a sorted permutation of the input); and when the part numbers
are pairwise distinct, any permutation of the input causes an identical
submission. -/
theorem claim5_complete_upload_sorts (bucket uid key : String)
    (completeResp : Except String String) (parts : List PartInfo)
    (hne : parts ≠ []) :
    ((complete_upload bucket completeResp uid key parts).snd
      = [ProviderCall.completeMultipartUpload bucket key uid
          (List.insertionSort partLE parts)])
    ∧ List.Sorted partLE (List.insertionSort partLE parts)
    ∧ (List.insertionSort partLE parts).Perm parts
    ∧ ∀ parts₂ : List PartInfo, (parts.map PartInfo.PartNumber).Nodup →
        parts.Perm parts₂ →
        (complete_upload bucket completeResp uid key parts).snd
          = (complete_upload bucket completeResp uid key parts₂).snd := by
  have hsnd : ∀ l : List PartInfo, l ≠ [] →
      (complete_upload bucket completeResp uid key l).snd
        = [ProviderCall.completeMultipartUpload bucket key uid
            (List.insertionSort partLE l)] := by
    intro l hl
    match l with
    | [] => exact absurd rfl hl
    | a :: t => cases completeResp <;> rfl
  refine ⟨hsnd parts hne, List.sorted_insertionSort partLE parts,
    List.perm_insertionSort partLE parts, ?_⟩
  intro parts₂ hnd hp
  have hne₂ : parts₂ ≠ [] := by
    intro h
    exact hne (List.Perm.eq_nil (h ▸ hp))
  rw [hsnd parts hne, hsnd parts₂ hne₂,
    insertionSort_eq_of_perm_of_nodup_keys hnd hp]

/-- C5 witness: submitting `[{2,"e2"},{1,"e1"}]` and its permutation
`[{1,"e1"},{2,"e2"}]` causes identical provider submissions. -/
theorem claim5_complete_upload_sorts_witness :
    (complete_upload "b" (Except.ok "loc") "uid" "k" [⟨2, "e2"⟩, ⟨1, "e1"⟩]).snd
      = (complete_upload "b" (Except.ok "loc") "uid" "k" [⟨1, "e1"⟩, ⟨2, "e2"⟩]).snd :=
  (claim5_complete_upload_sorts "b" "uid" "k" (Except.ok "loc") [⟨2, "e2"⟩, ⟨1, "e1"⟩]
    (by decide)).2.2.2 [⟨1, "e1"⟩, ⟨2, "e2"⟩] (by decide) (by decide)

/-- C8: when no custom key is supplied (and validation passes), the key
returned by `initiate_upload` is the auto-generated
`uploads/YYYY/MM/DD/HHMMSS_<filename>`: it is built from the current UTC
time's zero-padded fields, each segment all decimal digits of the expected
width whose digits decode back to the corresponding time field, and it ends
with the original filename unchanged. -/
theorem claim8_auto_key_format (cfg : S3Config) (bucket uid : String) (now : UTCTime)
    (filename : String) (file_size : Int) (ct : String) (md : List (String × String))
    (hval : validate_file cfg filename file_size = Except.ok ())
    (hy : now.year < 10000) (hmo : now.month < 100) (hd : now.day < 100)
    (hh : now.hour < 100) (hmin : now.minute < 100) (hs : now.second < 100) :
    ((initiate_upload cfg bucket now (Except.ok uid) filename file_size ct md none).fst.map
        InitiateUploadResponse.key
      = Except.ok (generate_s3_key now filename "uploads"))
    ∧ ((generate_s3_key now filename "uploads").data
        = ("uploads/" ++ pad4 now.year ++ "/" ++ pad2 now.month ++ "/" ++ pad2 now.day
            ++ "/" ++ pad2 now.hour ++ pad2 now.minute ++ pad2 now.second ++ "_").data
          ++ filename.data)
    ∧ (pad4 now.year).length = 4 ∧ (pad2 now.month).length = 2
    ∧ (pad2 now.day).length = 2 ∧ (pad2 now.hour).length = 2
    ∧ (pad2 now.minute).length = 2 ∧ (pad2 now.second).length = 2
    ∧ (pad4 now.year).data.all Char.isDigit = true
    ∧ (pad2 now.month).data.all Char.isDigit = true
    ∧ (pad2 now.day).data.all Char.isDigit = true
    ∧ (pad2 now.hour).data.all Char.isDigit = true
    ∧ (pad2 now.minute).data.all Char.isDigit = true
    ∧ (pad2 now.second).data.all Char.isDigit = true
    ∧ ((now.year / 1000 % 10) * 1000 + (now.year / 100 % 10) * 100
        + (now.year / 10 % 10) * 10 + now.year % 10 = now.year)
    ∧ ((now.month / 10 % 10) * 10 + now.month % 10 = now.month)
    ∧ ((now.day / 10 % 10) * 10 + now.day % 10 = now.day)
    ∧ ((now.hour / 10 % 10) * 10 + now.hour % 10 = now.hour)
    ∧ ((now.minute / 10 % 10) * 10 + now.minute % 10 = now.minute)
    ∧ ((now.second / 10 % 10) * 10 + now.second % 10 = now.second) := by
  refine ⟨?_, ?_, pad4_length _, pad2_length _, pad2_length _, pad2_length _,
    pad2_length _, pad2_length _, pad4_all_isDigit _, pad2_all_isDigit _,
    pad2_all_isDigit _, pad2_all_isDigit _, pad2_all_isDigit _, pad2_all_isDigit _,
    by omega, by omega, by omega, by omega, by omega, by omega⟩
  · unfold initiate_upload
    rw [hval]
    rfl
  · simp [generate_s3_key, String.data_append]

/-- C8 witness: the key generated at a concrete UTC instant for a concrete
filename. -/
theorem claim8_auto_key_format_witness :
    (initiate_upload cfg0 "b" t0 (Except.ok "uid") "report.pdf" 100 "ct" [] none).fst.map
        InitiateUploadResponse.key
      = Except.ok (generate_s3_key t0 "report.pdf" "uploads") :=
  (claim8_auto_key_format cfg0 "b" "uid" t0 "report.pdf" 100 "ct" [] rfl
    (by decide) (by decide) (by decide) (by decide) (by decide) (by decide)).1

/-- C7: for every full provider listing and every `page ≥ 1`,
`page_size ≥ 1`, `list_files` reports `total_count` equal to the number of
listed objects and `total_pages = ceil(total_count / page_size)`; the full
listing is sorted by last-modified descending (a sorted permutation of the
input) and `files` is its slice
`[(page-1)*page_size : (page-1)*page_size + page_size]`, so `last_modified`
is non-increasing across the returned files; a page past the end yields an
empty `files` list, not an error. -/
theorem claim7_list_files_pagination (bucket : String) (objs : List S3Object)
    (pfx : String) (page page_size : Int) (hp : 1 ≤ page) (hps : 1 ≤ page_size) :
    ((list_files bucket objs pfx page page_size).fst.total_count = (objs.length : Int))
    ∧ ((list_files bucket objs pfx page page_size).fst.total_pages
        = Int.ceil ((objs.length : ℚ) / (page_size : ℚ)))
    ∧ (List.insertionSort objDescLM objs).Perm objs
    ∧ List.Sorted objDescLM (List.insertionSort objDescLM objs)
    ∧ ((list_files bucket objs pfx page page_size).fst.files
        = (((List.insertionSort objDescLM objs).drop ((page - 1) * page_size).toNat).take
            page_size.toNat).map toFileInfo)
    ∧ List.Sorted (fun a b => b.last_modified ≤ a.last_modified)
        ((list_files bucket objs pfx page page_size).fst.files)
    ∧ ((objs.length : Int) ≤ (page - 1) * page_size →
        (list_files bucket objs pfx page page_size).fst.files = []) := by
  have hlen : (List.insertionSort objDescLM objs).length = objs.length :=
    (List.perm_insertionSort objDescLM objs).length_eq
  have hstart : 0 ≤ (page - 1) * page_size :=
    mul_nonneg (by omega) (by omega)
  have hfiles : (list_files bucket objs pfx page page_size).fst.files
      = (((List.insertionSort objDescLM objs).drop ((page - 1) * page_size).toNat).take
          page_size.toNat).map toFileInfo := by
    show ((pySlice (List.insertionSort objDescLM objs) ((page - 1) * page_size)
        ((page - 1) * page_size + page_size)).map toFileInfo) = _
    unfold pySlice
    have : ((page - 1) * page_size + page_size).toNat - ((page - 1) * page_size).toNat
        = page_size.toNat := by omega
    rw [this]
  refine ⟨?_, ?_, List.perm_insertionSort objDescLM objs,
    List.sorted_insertionSort objDescLM objs, hfiles, ?_, ?_⟩
  · show ((List.insertionSort objDescLM objs).length : Int) = (objs.length : Int)
    exact_mod_cast congrArg Nat.cast hlen
  · show (((List.insertionSort objDescLM objs).length : Int) + page_size - 1).fdiv page_size
      = Int.ceil ((objs.length : ℚ) / (page_size : ℚ))
    rw [hlen, fdiv_add_sub_one_eq_ceil _ _ (by omega)]
    norm_num
  · rw [hfiles]
    have hsorted : List.Sorted objDescLM
        (((List.insertionSort objDescLM objs).drop ((page - 1) * page_size).toNat).take
          page_size.toNat) :=
      List.Pairwise.sublist
        ((List.take_sublist _ _).trans (List.drop_sublist _ _))
        (List.sorted_insertionSort objDescLM objs)
    exact (List.pairwise_map).mpr hsorted
  · intro hpast
    rw [hfiles, List.drop_eq_nil_of_le (by omega : (List.insertionSort objDescLM objs).length
      ≤ ((page - 1) * page_size).toNat)]
    simp

/-- Five listing records with distinct modification instants. -/
def objs5 : List S3Object :=
  [⟨"uploads/a.txt", 1, 10, none⟩, ⟨"uploads/b.txt", 2, 30, none⟩,
    ⟨"uploads/c.txt", 3, 20, none⟩, ⟨"uploads/d.txt", 4, 40, none⟩,
    ⟨"uploads/e.txt", 5, 25, none⟩]

/-- C7 witness: with 5 objects and `page_size = 2`, page 1 reports
`total_count` 5, and page 4 (past the end) yields an empty `files` list. -/
theorem claim7_list_files_pagination_witness :
    ((list_files "b" objs5 "uploads/" 1 2).fst.total_count = (objs5.length : Int))
    ∧ (list_files "b" objs5 "uploads/" 4 2).fst.files = [] :=
  ⟨(claim7_list_files_pagination "b" objs5 "uploads/" 1 2 (by decide) (by decide)).1,
    (claim7_list_files_pagination "b" objs5 "uploads/" 4 2 (by decide)
      (by decide)).2.2.2.2.2.2 (by decide)⟩

end EasyS3
